import Mathlib

/-!
Verification of the stock-reconciliation CRUD logic of the inventory-and-orders
backend (source: `crud.py`, data model in `models.py`).

Modelling conventions:
* The SQLAlchemy session is modelled as an explicit `DB` state (lists of rows
  plus autoincrement counters).  Each CRUD operation is translated as a
  `corpo` function (the body of the `try:` block of the source, up to and including
  `db.commit()`): it returns `Except (Err × DB) DB`, where a raised
  `HTTPException` is an `.error` carrying the *uncommitted working state* at
  the raise point.  The surrounding `except HTTPException: db.rollback()`
  handler is the `transacao` wrapper: on error it discards the working state
  and the committed state stays as it was.
* Python `float` prices and totals are modelled as `ℚ`; all arithmetic in
  the source on these values is plain `+`/`*`/`-`, performed in identical
  order on identical operands wherever two quantities are compared, so
  nothing proved here depends on rounding.
* Integer columns are modelled as `ℤ` so that "stock never negative" is a
  real statement.  ORM rows mutated in place are modelled by re-reading /
  rewriting the row in the state by primary key (`setProduto`).
* Timestamp columns carry no claim and are omitted.
-/

/-- Row of the `produtos` table (`models.Produto`). -/
structure Produto where
  id : Nat
  nome : String
  descricao : Option String
  preco : Rat
  quantidade_estoque : Int
deriving Repr, DecidableEq

/-- Row of the `pedidos` table (`models.Pedido`). -/
structure Pedido where
  id : Nat
  cliente : String
  valor_total : Rat
deriving Repr, DecidableEq

/-- Row of the `itens_pedido` table (`models.ItemPedido`). -/
structure ItemPedido where
  id : Nat
  pedido_id : Nat
  produto_id : Nat
  nome_produto : String
  quantidade : Int
  preco_unitario : Rat
  valor_total_item : Rat
deriving Repr, DecidableEq

/-- The database state: the three tables plus autoincrement counters. -/
structure DB where
  produtos : List Produto
  pedidos : List Pedido
  itens : List ItemPedido
  nextProdutoId : Nat
  nextPedidoId : Nat
  nextItemId : Nat
deriving Repr, DecidableEq

/-- Request body `schemas.ProdutoCreate` / `schemas.ProdutoUpdate`
(identical field sets). -/
structure ProdutoCreate where
  nome : String
  descricao : Option String
  preco : Rat
  quantidade_estoque : Int
deriving Repr, DecidableEq

/-- Request body `schemas.ItemPedidoCreate`. -/
structure ItemPedidoCreate where
  produto_id : Nat
  quantidade : Int
deriving Repr, DecidableEq

/-- Request body `schemas.PedidoCreate` / `schemas.PedidoUpdate`. -/
structure PedidoCreate where
  cliente : String
  itens : List ItemPedidoCreate
deriving Repr, DecidableEq

/-- The `HTTPException`s raised by `crud.py`, one constructor per raise
site (identified by its `detail` message). -/
inductive Err where
  | precoInvalido
  | estoqueNegativo
  | nomeDuplicado
  | produtoNaoEncontrado (id : Nat)
  | pedidoNaoEncontrado
  | pedidoSemItens
  | produtosDuplicados
  | quantidadeInvalida
  | estoqueInsuficiente (nome : String)
  | produtoEmPedidos
deriving Repr, DecidableEq

/-- HTTP status code attached to each raise site in `crud.py`. -/
def Err.statusCode : Err → Nat
  | .precoInvalido => 400
  | .estoqueNegativo => 400
  | .nomeDuplicado => 400
  | .produtoNaoEncontrado _ => 404
  | .pedidoNaoEncontrado => 404
  | .pedidoSemItens => 400
  | .produtosDuplicados => 400
  | .quantidadeInvalida => 400
  | .estoqueInsuficiente _ => 400
  | .produtoEmPedidos => 400

/-- Error classes of the error taxonomy of the specification (section 7). -/
inductive ErrClass where
  | validation
  | notFound
  | conflict
  | internal
deriving Repr, DecidableEq

/-- Modelled from the spec: the taxonomy of section 7 assigns each business-rule
failure a class — Validation (bad input shape/values), NotFound (referenced
entity absent), Conflict (uniqueness or referential-integrity violation,
e.g. duplicate name, in-use product deletion, insufficient stock).  The code
itself carries only HTTP status codes; this map is the classification the spec gives
of the concrete raise sites. -/
def Err.taxonomy : Err → ErrClass
  | .precoInvalido => .validation
  | .estoqueNegativo => .validation
  | .nomeDuplicado => .conflict
  | .produtoNaoEncontrado _ => .notFound
  | .pedidoNaoEncontrado => .notFound
  | .pedidoSemItens => .validation
  | .produtosDuplicados => .validation
  | .quantidadeInvalida => .validation
  | .estoqueInsuficiente _ => .conflict
  | .produtoEmPedidos => .conflict

/-- Python `str.title()` on a character list: an alphabetic character is
uppercased when the previous character is not alphabetic and lowercased
otherwise. -/
def pyTitleAux : Bool → List Char → List Char
  | _, [] => []
  | prevAlpha, c :: cs =>
    (if c.isAlpha then (if prevAlpha then c.toLower else c.toUpper) else c)
      :: pyTitleAux c.isAlpha cs

/-- Python `str.title()`. -/
def pyTitle (s : String) : String :=
  String.mk (pyTitleAux false s.data)

/-- Python `str.strip()`: drop whitespace from both ends. -/
def pyStrip (s : String) : String :=
  String.mk
    (((s.data.dropWhile Char.isWhitespace).reverse.dropWhile Char.isWhitespace).reverse)

/-- Name normalization of the source, namely `s.strip().title()`. -/
def normalizeNome (s : String) : String :=
  pyTitle (pyStrip s)

/-- Translation of `dados.descricao.strip() if dados.descricao else None`
(Python truthiness: `None` and the empty string both fall to `None`). -/
def normalizeDescricao : Option String → Option String
  | none => none
  | some s => if s = "" then none else some (pyStrip s)

/-- Translation of `db.query(Produto).filter(Produto.id == id).first()`. -/
def DB.findProduto (db : DB) (produto_id : Nat) : Option Produto :=
  db.produtos.find? (fun p => p.id == produto_id)

/-- Translation of `db.query(Pedido).filter(Pedido.id == id).first()`. -/
def DB.findPedido (db : DB) (pedido_id : Nat) : Option Pedido :=
  db.pedidos.find? (fun p => p.id == pedido_id)

/-- ORM relationship `pedido.itens`: items whose foreign key is this order. -/
def DB.itensDoPedido (db : DB) (pedido_id : Nat) : List ItemPedido :=
  db.itens.filter (fun it => it.pedido_id == pedido_id)

/-- In-place ORM row mutation: every `produtos` row whose primary key equals
`p.id` is replaced by `p`. -/
def DB.setProduto (db : DB) (p : Produto) : DB :=
  { db with produtos := db.produtos.map (fun q => if q.id = p.id then p else q) }

/-- In-place ORM row mutation for a `pedidos` row. -/
def DB.setPedido (db : DB) (p : Pedido) : DB :=
  { db with pedidos := db.pedidos.map (fun q => if q.id = p.id then p else q) }

/-- The `except HTTPException: db.rollback(); raise` handler wrapped around
every operation body: on success the working state is the committed state, on
error the working state is discarded and the committed state is unchanged. -/
def transacao (db : DB) (r : Except (Err × DB) DB) : DB × Option Err :=
  match r with
  | .ok db' => (db', none)
  | .error (e, _) => (db, some e)

/-- Body of `crud.criar_produto` (the `try:` block): validate price, stock
and name uniqueness, then insert the normalized product row. -/
def criar_produto_corpo (db : DB) (produto : ProdutoCreate) : Except (Err × DB) DB :=
  if produto.preco ≤ 0 then .error (.precoInvalido, db)
  else if produto.quantidade_estoque < 0 then .error (.estoqueNegativo, db)
  else
    let nome := normalizeNome produto.nome
    match db.produtos.find? (fun p => p.nome == nome) with
    | some _ => .error (.nomeDuplicado, db)
    | none =>
      .ok { db with
        produtos := db.produtos ++
          [{ id := db.nextProdutoId, nome := nome,
             descricao := normalizeDescricao produto.descricao,
             preco := produto.preco,
             quantidade_estoque := produto.quantidade_estoque }],
        nextProdutoId := db.nextProdutoId + 1 }

/-- The full `crud.criar_produto`: body plus rollback handler. -/
def criar_produto (db : DB) (produto : ProdutoCreate) : DB × Option Err :=
  transacao db (criar_produto_corpo db produto)

/-- Body of `crud.atualizar_produto`: look the product up, validate the new
price, stock and (when renaming) name uniqueness, then overwrite its fields. -/
def atualizar_produto_corpo (db : DB) (produto_id : Nat) (dados : ProdutoCreate) :
    Except (Err × DB) DB :=
  match db.findProduto produto_id with
  | none => .error (.produtoNaoEncontrado produto_id, db)
  | some produto =>
    if dados.preco ≤ 0 then .error (.precoInvalido, db)
    else if dados.quantidade_estoque < 0 then .error (.estoqueNegativo, db)
    else
      let nome_normalizado := normalizeNome dados.nome
      let conflito :=
        if nome_normalizado ≠ produto.nome then
          (db.produtos.find?
            (fun p => p.nome == nome_normalizado && p.id != produto_id)).isSome
        else false
      if conflito then .error (.nomeDuplicado, db)
      else
        .ok (db.setProduto { produto with
          nome := nome_normalizado,
          descricao := normalizeDescricao dados.descricao,
          preco := dados.preco,
          quantidade_estoque := dados.quantidade_estoque })

/-- The full `crud.atualizar_produto`: body plus rollback handler. -/
def atualizar_produto (db : DB) (produto_id : Nat) (dados : ProdutoCreate) :
    DB × Option Err :=
  transacao db (atualizar_produto_corpo db produto_id dados)

/-- Body of `crud.deletar_produto`: refuse when any `itens_pedido` row still
references the product, otherwise remove it from the catalog. -/
def deletar_produto_corpo (db : DB) (produto_id : Nat) : Except (Err × DB) DB :=
  match db.findProduto produto_id with
  | none => .error (.produtoNaoEncontrado produto_id, db)
  | some _ =>
    match db.itens.find? (fun it => it.produto_id == produto_id) with
    | some _ => .error (.produtoEmPedidos, db)
    | none => .ok { db with produtos := db.produtos.filter (fun p => p.id ≠ produto_id) }

/-- The full `crud.deletar_produto`: body plus rollback handler. -/
def deletar_produto (db : DB) (produto_id : Nat) : DB × Option Err :=
  transacao db (deletar_produto_corpo db produto_id)

/-- One entry of the `itens_pedido` staging list of the source: the dictionary
of keys produto, item and total_item built by
the validation loop shared by `criar_pedido` and `atualizar_pedido`. -/
structure Entrada where
  produto : Produto
  item : ItemPedidoCreate
  total_item : Rat
deriving Repr, DecidableEq

/-- The validation loop of `criar_pedido` / `atualizar_pedido`: walk the
requested lines in caller order, reject a non-positive quantity, a missing
product or insufficient stock, and otherwise accumulate `valor_total` and
the staged entries (no state mutation happens here). -/
def validarItens (db : DB) (itens : List ItemPedidoCreate) (valor_total : Rat)
    (acc : List Entrada) : Except Err (Rat × List Entrada) :=
  match itens with
  | [] => .ok (valor_total, acc.reverse)
  | item :: rest =>
    if item.quantidade ≤ 0 then .error .quantidadeInvalida
    else
      match db.findProduto item.produto_id with
      | none => .error (.produtoNaoEncontrado item.produto_id)
      | some produto =>
        if produto.quantidade_estoque < item.quantidade then
          .error (.estoqueInsuficiente produto.nome)
        else
          let total_item := item.quantidade * produto.preco
          validarItens db rest (valor_total + total_item)
            ({ produto := produto, item := item, total_item := total_item } :: acc)

/-- The application loop shared by `criar_pedido` and `atualizar_pedido`:
for each staged entry, decrement the stock of the product by the requested
quantity and insert a fresh `ItemPedido` row snapshotting the name and the
price of the product, together with the quantity and line total. -/
def aplicarItens (db : DB) (pedido_id : Nat) : List Entrada → DB
  | [] => db
  | e :: rest =>
    let db1 := db.setProduto { e.produto with
      quantidade_estoque := e.produto.quantidade_estoque - e.item.quantidade }
    let novo : ItemPedido :=
      { id := db1.nextItemId, pedido_id := pedido_id,
        produto_id := e.produto.id, nome_produto := e.produto.nome,
        quantidade := e.item.quantidade, preco_unitario := e.produto.preco,
        valor_total_item := e.total_item }
    aplicarItens
      { db1 with itens := db1.itens ++ [novo], nextItemId := db1.nextItemId + 1 }
      pedido_id rest

/-- Body of `crud.criar_pedido`: reject an empty list or duplicate product
ids, validate every line (`validarItens`), then insert the order row and run
the application loop. -/
def criar_pedido_corpo (db : DB) (pedido : PedidoCreate) : Except (Err × DB) DB :=
  if pedido.itens.isEmpty then .error (.pedidoSemItens, db)
  else
    let produto_ids := pedido.itens.map (·.produto_id)
    if produto_ids.dedup.length ≠ produto_ids.length then
      .error (.produtosDuplicados, db)
    else
      match validarItens db pedido.itens 0 [] with
      | .error e => .error (e, db)
      | .ok (valor_total, entradas) =>
        let db1 := { db with
          pedidos := db.pedidos ++
            [{ id := db.nextPedidoId, cliente := normalizeNome pedido.cliente,
               valor_total := valor_total }],
          nextPedidoId := db.nextPedidoId + 1 }
        .ok (aplicarItens db1 db.nextPedidoId entradas)

/-- The full `crud.criar_pedido`: body plus rollback handler. -/
def criar_pedido (db : DB) (pedido : PedidoCreate) : DB × Option Err :=
  transacao db (criar_pedido_corpo db pedido)

/-- The reversal loop of `atualizar_pedido` / `deletar_pedido`: for each
(product id, quantity) pair captured from the current items of the order, re-read
the live product row and add the quantity back to its stock; a pair whose
product no longer exists is skipped. -/
def reverterEstoque (db : DB) : List (Nat × Int) → DB
  | [] => db
  | (produto_id, quantidade) :: rest =>
    match db.findProduto produto_id with
    | some produto =>
      reverterEstoque
        (db.setProduto { produto with
          quantidade_estoque := produto.quantidade_estoque + quantidade }) rest
    | none => reverterEstoque db rest

/-- The working state of `atualizar_pedido` after its two preparatory
mutations: the stock of every product referenced by the current items of the
order has been replenished (the `itens_antigos` capture followed by the
`+=` loop) and the old items have been deleted; the new list is validated
against this state. -/
def estadoRevertido (db : DB) (pedido_id : Nat) : DB :=
  let itens_antigos := (db.itensDoPedido pedido_id).filterMap
    (fun it => (db.findProduto it.produto_id).map
      (fun p => (p.id, it.quantidade)))
  let db1 := reverterEstoque db itens_antigos
  { db1 with itens := db1.itens.filter (fun it => it.pedido_id ≠ pedido_id) }

/-- Body of `crud.atualizar_pedido`: find the order, reject an empty list or
duplicate product ids, replenish the stock of the products of the existing items,
delete the existing items (`estadoRevertido`), then validate the new list
against the replenished state and, on success, overwrite the fields of the
order and run the application loop. -/
def atualizar_pedido_corpo (db : DB) (pedido_id : Nat) (dados : PedidoCreate) :
    Except (Err × DB) DB :=
  match db.findPedido pedido_id with
  | none => .error (.pedidoNaoEncontrado, db)
  | some pedido =>
    if dados.itens.isEmpty then .error (.pedidoSemItens, db)
    else
      let produto_ids := dados.itens.map (·.produto_id)
      if produto_ids.dedup.length ≠ produto_ids.length then
        .error (.produtosDuplicados, db)
      else
        let db2 := estadoRevertido db pedido_id
        match validarItens db2 dados.itens 0 [] with
        | .error e => .error (e, db2)
        | .ok (valor_total, entradas) =>
          let db3 := db2.setPedido { pedido with
            cliente := normalizeNome dados.cliente, valor_total := valor_total }
          .ok (aplicarItens db3 pedido_id entradas)

/-- The full `crud.atualizar_pedido`: body plus rollback handler. -/
def atualizar_pedido (db : DB) (pedido_id : Nat) (dados : PedidoCreate) :
    DB × Option Err :=
  transacao db (atualizar_pedido_corpo db pedido_id dados)

/-- Body of `crud.deletar_pedido`: find the order, replenish the stock of
every item whose product still exists (missing products are skipped), then
delete the items of the order and the order itself. -/
def deletar_pedido_corpo (db : DB) (pedido_id : Nat) : Except (Err × DB) DB :=
  match db.findPedido pedido_id with
  | none => .error (.pedidoNaoEncontrado, db)
  | some _ =>
    let db1 := reverterEstoque db
      ((db.itensDoPedido pedido_id).map (fun it => (it.produto_id, it.quantidade)))
    let db2 := { db1 with
      itens := db1.itens.filter (fun it => it.pedido_id ≠ pedido_id) }
    .ok { db2 with pedidos := db2.pedidos.filter (fun p => p.id ≠ pedido_id) }

/-- The full `crud.deletar_pedido`: body plus rollback handler. -/
def deletar_pedido (db : DB) (pedido_id : Nat) : DB × Option Err :=
  transacao db (deletar_pedido_corpo db pedido_id)

/-! Basic lemmas about the state helpers. -/

theorem setProduto_itens (db : DB) (p : Produto) : (db.setProduto p).itens = db.itens := rfl

theorem setProduto_pedidos (db : DB) (p : Produto) : (db.setProduto p).pedidos = db.pedidos := rfl

theorem setPedido_produtos (db : DB) (p : Pedido) : (db.setPedido p).produtos = db.produtos := rfl

theorem setPedido_itens (db : DB) (p : Pedido) : (db.setPedido p).itens = db.itens := rfl

theorem setProduto_nextItemId (db : DB) (p : Produto) :
    (db.setProduto p).nextItemId = db.nextItemId := rfl

/-- Auxiliary list fact: replacing, by primary key, one row in a list commutes
with lookup by any primary key. -/
theorem find_id_map_substituir (l : List Produto) (p : Produto) (pid : Nat) :
    (l.map (fun q => if q.id = p.id then p else q)).find? (fun q => q.id == pid)
      = (l.find? (fun q => q.id == pid)).map (fun q => if q.id = p.id then p else q) := by
  induction l with
  | nil => rfl
  | cons q l ih =>
    have hid : ((if q.id = p.id then p else q) : Produto).id = q.id := by
      by_cases h1 : q.id = p.id
      · rw [if_pos h1, ← h1]
      · rw [if_neg h1]
    simp only [List.map_cons]
    by_cases h2 : q.id = pid
    · rw [List.find?_cons_of_pos (p := fun r : Produto => r.id == pid) _
          (by simp only [hid]; simp [h2]),
        List.find?_cons_of_pos (p := fun r : Produto => r.id == pid) _ (by simp [h2])]
      rfl
    · rw [List.find?_cons_of_neg (p := fun r : Produto => r.id == pid) _
          (by simp only [hid]; simp [h2]),
        List.find?_cons_of_neg (p := fun r : Produto => r.id == pid) _ (by simp [h2]), ih]

/-- A successful lookup returns a member of the table bearing the looked-up
primary key. -/
theorem findProduto_eq_some {db : DB} {pid : Nat} {p : Produto}
    (h : db.findProduto pid = some p) : p ∈ db.produtos ∧ p.id = pid := by
  simp only [DB.findProduto] at h
  have hp := List.find?_some h
  exact ⟨List.mem_of_find?_eq_some h, by simpa using hp⟩

/-- A successful order lookup returns a member of the table bearing the
looked-up primary key. -/
theorem findPedido_eq_some {db : DB} {pid : Nat} {p : Pedido}
    (h : db.findPedido pid = some p) : p ∈ db.pedidos ∧ p.id = pid := by
  simp only [DB.findPedido] at h
  have hp := List.find?_some h
  exact ⟨List.mem_of_find?_eq_some h, by simpa using hp⟩

/-- Lookup after an in-place row update: the result is the old lookup result
with the update applied to it. -/
theorem findProduto_setProduto (db : DB) (p : Produto) (pid : Nat) :
    (db.setProduto p).findProduto pid
      = (db.findProduto pid).map (fun q => if q.id = p.id then p else q) := by
  simp only [DB.setProduto, DB.findProduto]
  exact find_id_map_substituir db.produtos p pid

/-- Updating a row whose key differs from the looked-up key changes nothing. -/
theorem findProduto_setProduto_ne (db : DB) (p : Produto) (pid : Nat) (h : pid ≠ p.id) :
    (db.setProduto p).findProduto pid = db.findProduto pid := by
  rw [findProduto_setProduto]
  cases hf : db.findProduto pid with
  | none => rfl
  | some q =>
    have hq : q.id = pid := (findProduto_eq_some hf).2
    have hne : ¬ q.id = p.id := by rw [hq]; exact h
    simp [hne]

/-- Every row of the state after an in-place update is either the written row
or one of the previous rows. -/
theorem mem_setProduto {db : DB} {p x : Produto} (hx : x ∈ (db.setProduto p).produtos) :
    x = p ∨ x ∈ db.produtos := by
  simp only [DB.setProduto, List.mem_map] at hx
  obtain ⟨q, hq, hfx⟩ := hx
  by_cases h : q.id = p.id
  · rw [if_pos h] at hfx
    exact Or.inl hfx.symm
  · rw [if_neg h] at hfx
    exact Or.inr (hfx ▸ hq)

/-- A duplicate-free `dedup` length check certifies that the list itself has
no duplicates (the translation of `len(set(xs)) == len(xs)`). -/
theorem nodup_of_dedup_length {α : Type} [DecidableEq α] (l : List α)
    (h : l.dedup.length = l.length) : l.Nodup := by
  have hsub : List.Sublist l.dedup l := List.dedup_sublist l
  have : l.dedup = l := hsub.eq_of_length h
  rw [← this]
  exact List.nodup_dedup l

/-! The invariants maintained by the reconciliation engine. -/

/-- Invariant: no product of the catalog has negative stock. -/
def estoqueOk (db : DB) : Prop := ∀ p ∈ db.produtos, 0 ≤ p.quantidade_estoque

/-- Invariant: every order item has positive quantity. -/
def quantidadesOk (db : DB) : Prop := ∀ it ∈ db.itens, 0 < it.quantidade

instance (db : DB) : Decidable (estoqueOk db) := by unfold estoqueOk; infer_instance

instance (db : DB) : Decidable (quantidadesOk db) := by unfold quantidadesOk; infer_instance

/-! Lemmas about the reversal loop. -/

theorem reverterEstoque_itens (l : List (Nat × Int)) (db : DB) :
    (reverterEstoque db l).itens = db.itens := by
  induction l generalizing db with
  | nil => rfl
  | cons x l ih =>
    obtain ⟨pid, q⟩ := x
    simp only [reverterEstoque]
    cases hf : db.findProduto pid with
    | none => exact ih db
    | some produto => exact ih _

theorem reverterEstoque_pedidos (l : List (Nat × Int)) (db : DB) :
    (reverterEstoque db l).pedidos = db.pedidos := by
  induction l generalizing db with
  | nil => rfl
  | cons x l ih =>
    obtain ⟨pid, q⟩ := x
    simp only [reverterEstoque]
    cases hf : db.findProduto pid with
    | none => exact ih db
    | some produto => exact ih _

theorem reverterEstoque_nextItemId (l : List (Nat × Int)) (db : DB) :
    (reverterEstoque db l).nextItemId = db.nextItemId := by
  induction l generalizing db with
  | nil => rfl
  | cons x l ih =>
    obtain ⟨pid, q⟩ := x
    simp only [reverterEstoque]
    cases hf : db.findProduto pid with
    | none => exact ih db
    | some produto => exact ih _

/-- Reversing stock can only keep every stock non-negative when the added
quantities are non-negative. -/
theorem reverterEstoque_estoqueOk (l : List (Nat × Int)) (db : DB)
    (hq : ∀ x ∈ l, 0 ≤ x.2) (hinv : estoqueOk db) :
    estoqueOk (reverterEstoque db l) := by
  induction l generalizing db with
  | nil => exact hinv
  | cons x l ih =>
    obtain ⟨pid, q⟩ := x
    simp only [reverterEstoque]
    cases hf : db.findProduto pid with
    | none => exact ih db (fun y hy => hq y (List.mem_cons_of_mem _ hy)) hinv
    | some produto =>
      refine ih _ (fun y hy => hq y (List.mem_cons_of_mem _ hy)) ?_
      intro r hr
      rcases mem_setProduto hr with rfl | hr2
      · exact add_nonneg (hinv produto (findProduto_eq_some hf).1)
          (hq (pid, q) (List.mem_cons_self _ _))
      · exact hinv r hr2

/-- The identity, name, description and price of a product row — everything
except the stock. -/
def chaveProduto (p : Produto) : Nat × String × Option String × Rat :=
  (p.id, p.nome, p.descricao, p.preco)

/-- The reversal loop touches only stock quantities: looking any product up
afterwards returns a row with the same id, name, description and price. -/
theorem reverterEstoque_chave (l : List (Nat × Int)) (db : DB) (pid : Nat) :
    ((reverterEstoque db l).findProduto pid).map chaveProduto
      = (db.findProduto pid).map chaveProduto := by
  induction l generalizing db with
  | nil => rfl
  | cons x l ih =>
    obtain ⟨xid, q⟩ := x
    simp only [reverterEstoque]
    cases hf : db.findProduto xid with
    | none => exact ih db
    | some produto =>
      rw [ih _, findProduto_setProduto]
      cases hg : db.findProduto pid with
      | none => rfl
      | some r =>
        by_cases hr : r.id = produto.id
        · have hpid : pid = xid := by
            rw [← (findProduto_eq_some hg).2, hr, (findProduto_eq_some hf).2]
          rw [hpid, hf] at hg
          injection hg with hg
          subst hg
          simp [chaveProduto]
        · simp [hr, chaveProduto]

/-! Lemmas about the application loop. -/

/-- The `ItemPedido` rows created by `aplicarItens` from the staged entries,
starting from a given autoincrement counter. -/
def novosItens (nextId pedido_id : Nat) : List Entrada → List ItemPedido
  | [] => []
  | e :: rest =>
    { id := nextId, pedido_id := pedido_id, produto_id := e.produto.id,
      nome_produto := e.produto.nome, quantidade := e.item.quantidade,
      preco_unitario := e.produto.preco, valor_total_item := e.total_item }
      :: novosItens (nextId + 1) pedido_id rest

theorem aplicarItens_itens (l : List Entrada) (db : DB) (pid : Nat) :
    (aplicarItens db pid l).itens = db.itens ++ novosItens db.nextItemId pid l := by
  induction l generalizing db with
  | nil => simp [aplicarItens, novosItens]
  | cons e l ih =>
    simp only [aplicarItens, novosItens]
    rw [ih]
    simp [DB.setProduto]

theorem aplicarItens_pedidos (l : List Entrada) (db : DB) (pid : Nat) :
    (aplicarItens db pid l).pedidos = db.pedidos := by
  induction l generalizing db with
  | nil => rfl
  | cons e l ih =>
    simp only [aplicarItens]
    rw [ih]
    rfl

/-- The application loop keeps all stocks non-negative provided all staged
entries were validated (product found with at least the requested quantity in
stock) against the current state and reference pairwise distinct products. -/
theorem aplicarItens_estoqueOk (l : List Entrada) (db : DB) (pid : Nat)
    (hnd : (l.map (fun e => e.produto.id)).Nodup)
    (hval : ∀ e ∈ l, db.findProduto e.produto.id = some e.produto
        ∧ e.item.quantidade ≤ e.produto.quantidade_estoque)
    (hinv : estoqueOk db) : estoqueOk (aplicarItens db pid l) := by
  induction l generalizing db with
  | nil => exact hinv
  | cons e l ih =>
    rw [List.map_cons, List.nodup_cons] at hnd
    simp only [aplicarItens]
    refine ih _ hnd.2 ?_ ?_
    · intro e2 he2
      have hne : e2.produto.id ≠ e.produto.id := fun hcontra =>
        hnd.1 (hcontra ▸ List.mem_map_of_mem (fun x => x.produto.id) he2)
      refine ⟨?_, (hval e2 (List.mem_cons_of_mem _ he2)).2⟩
      have hstep : (db.setProduto { e.produto with
          quantidade_estoque := e.produto.quantidade_estoque - e.item.quantidade
        }).findProduto e2.produto.id = db.findProduto e2.produto.id :=
        findProduto_setProduto_ne _ _ _ hne
      exact hstep.trans (hval e2 (List.mem_cons_of_mem _ he2)).1
    · intro r hr
      have hr2 : r ∈ (db.setProduto { e.produto with
          quantidade_estoque := e.produto.quantidade_estoque - e.item.quantidade
        }).produtos := hr
      rcases mem_setProduto hr2 with rfl | hr3
      · exact sub_nonneg.mpr (hval e (List.mem_cons_self _ _)).2
      · exact hinv r hr3

/-- Every row created by the application loop belongs to the given order. -/
theorem novosItens_pedido_id (l : List Entrada) (nid pid : Nat) :
    ∀ it ∈ novosItens nid pid l, it.pedido_id = pid := by
  induction l generalizing nid with
  | nil => simp [novosItens]
  | cons e l ih =>
    intro it hit
    rcases List.mem_cons.mp hit with rfl | hit2
    · rfl
    · exact ih _ it hit2

/-- Rows created by the application loop inherit the positive quantities of
the staged entries. -/
theorem novosItens_quantidade (l : List Entrada) (nid pid : Nat)
    (hq : ∀ e ∈ l, 0 < e.item.quantidade) :
    ∀ it ∈ novosItens nid pid l, 0 < it.quantidade := by
  induction l generalizing nid with
  | nil => simp [novosItens]
  | cons e l ih =>
    intro it hit
    rcases List.mem_cons.mp hit with rfl | hit2
    · exact hq e (List.mem_cons_self _ _)
    · exact ih _ (fun e2 he2 => hq e2 (List.mem_cons_of_mem _ he2)) it hit2

/-- Summing `quantidade × preco_unitario` over the created rows gives the sum
of the staged line totals. -/
theorem novosItens_soma (l : List Entrada) (nid pid : Nat)
    (ht : ∀ e ∈ l, e.total_item = e.item.quantidade * e.produto.preco) :
    ((novosItens nid pid l).map
        (fun it => (it.quantidade : Rat) * it.preco_unitario)).sum
      = (l.map (fun e => e.total_item)).sum := by
  induction l generalizing nid with
  | nil => simp [novosItens]
  | cons e l ih =>
    simp only [novosItens, List.map_cons, List.sum_cons]
    rw [ih _ (fun e2 he2 => ht e2 (List.mem_cons_of_mem _ he2))]
    rw [ht e (List.mem_cons_self _ _)]

/-- The snapshot fields of every row created by the application loop copy
name and price of the staged product. -/
theorem novosItens_snapshot (l : List Entrada) (nid pid : Nat) :
    ∀ it ∈ novosItens nid pid l, ∃ e ∈ l,
      it.produto_id = e.produto.id ∧ it.nome_produto = e.produto.nome
        ∧ it.preco_unitario = e.produto.preco ∧ it.quantidade = e.item.quantidade := by
  induction l generalizing nid with
  | nil => simp [novosItens]
  | cons e l ih =>
    intro it hit
    rcases List.mem_cons.mp hit with rfl | hit2
    · exact ⟨e, List.mem_cons_self _ _, rfl, rfl, rfl, rfl⟩
    · obtain ⟨e2, he2, hp⟩ := ih _ it hit2
      exact ⟨e2, List.mem_cons_of_mem _ he2, hp⟩

/-! The validation loop: characterization of a successful run. -/

/-- Sum of the staged line totals. -/
def somaTotais (l : List Entrada) : Rat := (l.map (fun e => e.total_item)).sum

/-- A successful validation run performs no mutation and returns exactly the
lines it was given, each staged with the product that a lookup in the current
state returns, holding a positive requested quantity covered by that product
stock, and a line total of quantity times current price; the accumulated
total is the sum of the line totals. -/
theorem validarItens_ok (db : DB) (itens : List ItemPedidoCreate) (vt0 : Rat)
    (acc : List Entrada) (vt : Rat) (es : List Entrada)
    (h : validarItens db itens vt0 acc = .ok (vt, es)) :
    ∃ novas, es = acc.reverse ++ novas
      ∧ vt = vt0 + somaTotais novas
      ∧ novas.map (fun e => e.item) = itens
      ∧ ∀ e ∈ novas,
          db.findProduto e.item.produto_id = some e.produto
          ∧ e.produto.id = e.item.produto_id
          ∧ 0 < e.item.quantidade
          ∧ e.item.quantidade ≤ e.produto.quantidade_estoque
          ∧ e.total_item = e.item.quantidade * e.produto.preco := by
  induction itens generalizing vt0 acc with
  | nil =>
    simp only [validarItens] at h
    refine ⟨[], ?_, ?_, rfl, by simp⟩
    · have : acc.reverse = es := by
        injection h with h2
        exact congrArg Prod.snd h2
      rw [← this, List.append_nil]
    · have : vt0 = vt := by
        injection h with h2
        exact congrArg Prod.fst h2
      rw [← this, somaTotais]
      simp
  | cons item rest ih =>
    simp only [validarItens] at h
    by_cases h1 : item.quantidade ≤ 0
    · rw [if_pos h1] at h
      simp at h
    rw [if_neg h1] at h
    cases hf : db.findProduto item.produto_id with
    | none =>
      simp only [hf] at h
      simp at h
    | some produto =>
      simp only [hf] at h
      by_cases h2 : produto.quantidade_estoque < item.quantidade
      · rw [if_pos h2] at h
        simp at h
      rw [if_neg h2] at h
      obtain ⟨novas, hes, hvt, hmap, hprops⟩ := ih _ _ h
      refine ⟨Entrada.mk produto item (item.quantidade * produto.preco) :: novas,
        ?_, ?_, ?_, ?_⟩
      · rw [hes]
        simp
      · rw [hvt]
        simp only [somaTotais, List.map_cons, List.sum_cons]
        ring
      · simp [hmap]
      · intro e he
        rcases List.mem_cons.mp he with rfl | he2
        · exact ⟨hf, (findProduto_eq_some hf).2, lt_of_not_le h1, le_of_not_lt h2, rfl⟩
        · exact hprops e he2

/-! Invariant preservation, operation by operation. -/

/-- The state invariants maintained by every committed operation: stock never
negative, and every order item carries a positive quantity. -/
def invariante (db : DB) : Prop := estoqueOk db ∧ quantidadesOk db

/-- A committed transaction preserves any state property that the body
establishes on success, because on failure the committed state is untouched. -/
theorem transacao_invariante (db : DB) (r : Except (Err × DB) DB)
    (h : invariante db) (hok : ∀ db', r = .ok db' → invariante db') :
    invariante (transacao db r).1 := by
  cases r with
  | ok db' => exact hok db' rfl
  | error ed =>
    obtain ⟨e, d⟩ := ed
    simpa [transacao] using h

/-- Characterization of a successful `criar_produto` body. -/
theorem criar_produto_corpo_ok {db : DB} {produto : ProdutoCreate} {db' : DB}
    (h : criar_produto_corpo db produto = .ok db') :
    ¬ produto.quantidade_estoque < 0 ∧
    db' = { db with
      produtos := db.produtos ++
        [{ id := db.nextProdutoId,
           nome := normalizeNome produto.nome,
           descricao := normalizeDescricao produto.descricao,
           preco := produto.preco,
           quantidade_estoque := produto.quantidade_estoque }],
      nextProdutoId := db.nextProdutoId + 1 } := by
  simp only [criar_produto_corpo] at h
  split at h
  · exact absurd h (by simp)
  split at h
  · exact absurd h (by simp)
  split at h
  · exact absurd h (by simp)
  · injection h with h
    exact ⟨‹¬ _›, h.symm⟩

theorem criar_produto_invariante (db : DB) (produto : ProdutoCreate)
    (h : invariante db) : invariante (criar_produto db produto).1 := by
  unfold criar_produto
  refine transacao_invariante _ _ h ?_
  intro db' hok
  obtain ⟨hstock, rfl⟩ := criar_produto_corpo_ok hok
  constructor
  · intro r hr
    rcases List.mem_append.mp hr with hr1 | hr2
    · exact h.1 r hr1
    · rw [List.mem_singleton.mp hr2]
      exact not_lt.mp hstock
  · exact h.2

/-- Characterization of a successful `atualizar_produto` body. -/
theorem atualizar_produto_corpo_ok {db : DB} {pid : Nat} {dados : ProdutoCreate}
    {db' : DB} (h : atualizar_produto_corpo db pid dados = .ok db') :
    ∃ produto, db.findProduto pid = some produto ∧ ¬ dados.quantidade_estoque < 0 ∧
      db' = db.setProduto { produto with
        nome := normalizeNome dados.nome,
        descricao := normalizeDescricao dados.descricao,
        preco := dados.preco,
        quantidade_estoque := dados.quantidade_estoque } := by
  simp only [atualizar_produto_corpo] at h
  split at h
  · exact absurd h (by simp)
  next produto hfind =>
    split at h
    · exact absurd h (by simp)
    split at h
    · exact absurd h (by simp)
    split at h
    · split at h
      · exact absurd h (by simp)
      · injection h with h
        exact ⟨produto, hfind, ‹¬ _›, h.symm⟩
    · injection h with h
      exact ⟨produto, hfind, ‹¬ _›, h.symm⟩

theorem atualizar_produto_invariante (db : DB) (pid : Nat) (dados : ProdutoCreate)
    (h : invariante db) : invariante (atualizar_produto db pid dados).1 := by
  unfold atualizar_produto
  refine transacao_invariante _ _ h ?_
  intro db' hok
  obtain ⟨produto, hfind, hstock, rfl⟩ := atualizar_produto_corpo_ok hok
  constructor
  · intro r hr
    rcases mem_setProduto hr with rfl | hr2
    · exact not_lt.mp hstock
    · exact h.1 r hr2
  · exact h.2

theorem deletar_produto_invariante (db : DB) (pid : Nat)
    (h : invariante db) : invariante (deletar_produto db pid).1 := by
  unfold deletar_produto
  refine transacao_invariante _ _ h ?_
  intro db' hok
  simp only [deletar_produto_corpo] at hok
  split at hok
  · exact absurd hok (by simp)
  split at hok
  · exact absurd hok (by simp)
  · injection hok with hok
    subst hok
    constructor
    · intro r hr
      exact h.1 r (List.mem_of_mem_filter hr)
    · exact h.2

/-- Characterization of a successful `criar_pedido` body. -/
theorem criar_pedido_corpo_ok {db : DB} {pedido : PedidoCreate} {db' : DB}
    (h : criar_pedido_corpo db pedido = .ok db') :
    ∃ vt entradas, validarItens db pedido.itens 0 [] = .ok (vt, entradas) ∧
      (pedido.itens.map (fun it => it.produto_id)).Nodup ∧
      db' = aplicarItens { db with
          pedidos := db.pedidos ++
            [{ id := db.nextPedidoId,
               cliente := normalizeNome pedido.cliente,
               valor_total := vt }],
          nextPedidoId := db.nextPedidoId + 1 } db.nextPedidoId entradas := by
  simp only [criar_pedido_corpo] at h
  split at h
  · exact absurd h (by simp)
  split at h
  · exact absurd h (by simp)
  split at h
  · exact absurd h (by simp)
  next vt entradas hval =>
    injection h with h
    refine ⟨vt, entradas, hval, ?_, h.symm⟩
    exact nodup_of_dedup_length _ (not_ne_iff.mp ‹¬ _›)

theorem criar_pedido_invariante (db : DB) (pedido : PedidoCreate)
    (h : invariante db) : invariante (criar_pedido db pedido).1 := by
  unfold criar_pedido
  refine transacao_invariante _ _ h ?_
  intro db' hok
  obtain ⟨vt, entradas, hval, hnd, rfl⟩ := criar_pedido_corpo_ok hok
  obtain ⟨novas, hes, hvt, hmap, hprops⟩ := validarItens_ok _ _ _ _ _ _ hval
  have hnovas : entradas = novas := by simpa using hes
  subst hnovas
  have hids : entradas.map (fun e => e.produto.id)
      = pedido.itens.map (fun it => it.produto_id) := by
    rw [← hmap, List.map_map]
    exact List.map_congr_left (fun e he => (hprops e he).2.1)
  constructor
  · apply aplicarItens_estoqueOk
    · rw [hids]
      exact hnd
    · intro e he
      refine ⟨?_, (hprops e he).2.2.2.1⟩
      rw [(hprops e he).2.1]
      exact (hprops e he).1
    · exact h.1
  · intro it hit
    rw [aplicarItens_itens] at hit
    rcases List.mem_append.mp hit with h1 | h2
    · exact h.2 it h1
    · exact novosItens_quantidade _ _ _ (fun e he => (hprops e he).2.2.1) it h2

/-- Characterization of a successful `atualizar_pedido` body. -/
theorem atualizar_pedido_corpo_ok {db : DB} {pid : Nat} {dados : PedidoCreate}
    {db' : DB} (h : atualizar_pedido_corpo db pid dados = .ok db') :
    ∃ pedido vt entradas,
      db.findPedido pid = some pedido ∧
      (dados.itens.map (fun it => it.produto_id)).Nodup ∧
      validarItens (estadoRevertido db pid) dados.itens 0 [] = .ok (vt, entradas) ∧
      db' = aplicarItens ((estadoRevertido db pid).setPedido { pedido with
          cliente := normalizeNome dados.cliente,
          valor_total := vt }) pid entradas := by
  simp only [atualizar_pedido_corpo] at h
  split at h
  · exact absurd h (by simp)
  next pedido hfind =>
    split at h
    · exact absurd h (by simp)
    split at h
    · exact absurd h (by simp)
    split at h
    · exact absurd h (by simp)
    next vt entradas hval =>
      injection h with h
      exact ⟨pedido, vt, entradas, hfind,
        nodup_of_dedup_length _ (not_ne_iff.mp ‹¬ _›), hval, h.symm⟩

/-- The replenish-and-delete preparation preserves both invariants. -/
theorem estadoRevertido_invariante (db : DB) (pid : Nat) (h : invariante db) :
    invariante (estadoRevertido db pid) := by
  constructor
  · have hrev : estoqueOk (reverterEstoque db
        ((db.itensDoPedido pid).filterMap
          (fun it => (db.findProduto it.produto_id).map
            (fun p => (p.id, it.quantidade))))) := by
      apply reverterEstoque_estoqueOk _ _ ?_ h.1
      intro x hx
      simp only [List.mem_filterMap] at hx
      obtain ⟨it, hit, hmapx⟩ := hx
      obtain ⟨p, hp, hpx⟩ := Option.map_eq_some'.mp hmapx
      have : x.2 = it.quantidade := by rw [← hpx]
      rw [this]
      exact le_of_lt (h.2 it (List.mem_of_mem_filter hit))
    intro r hr
    exact hrev r hr
  · intro it hit
    have hit2 : it ∈ (reverterEstoque db
        ((db.itensDoPedido pid).filterMap
          (fun x => (db.findProduto x.produto_id).map
            (fun p => (p.id, x.quantidade))))).itens.filter
        (fun x => x.pedido_id ≠ pid) := hit
    rw [reverterEstoque_itens] at hit2
    exact h.2 it (List.mem_of_mem_filter hit2)

theorem atualizar_pedido_invariante (db : DB) (pid : Nat) (dados : PedidoCreate)
    (h : invariante db) : invariante (atualizar_pedido db pid dados).1 := by
  unfold atualizar_pedido
  refine transacao_invariante _ _ h ?_
  intro db' hok
  obtain ⟨pedido, vt, entradas, hfind, hnd, hval, rfl⟩ := atualizar_pedido_corpo_ok hok
  obtain ⟨novas, hes, hvt, hmap, hprops⟩ := validarItens_ok _ _ _ _ _ _ hval
  have hnovas : entradas = novas := by simpa using hes
  subst hnovas
  have hinv2 : invariante (estadoRevertido db pid) := estadoRevertido_invariante db pid h
  have hids : entradas.map (fun e => e.produto.id)
      = dados.itens.map (fun it => it.produto_id) := by
    rw [← hmap, List.map_map]
    exact List.map_congr_left (fun e he => (hprops e he).2.1)
  constructor
  · apply aplicarItens_estoqueOk
    · rw [hids]
      exact hnd
    · intro e he
      refine ⟨?_, (hprops e he).2.2.2.1⟩
      rw [(hprops e he).2.1]
      exact (hprops e he).1
    · exact hinv2.1
  · intro it hit
    rw [aplicarItens_itens] at hit
    rcases List.mem_append.mp hit with h1 | h2
    · exact hinv2.2 it h1
    · exact novosItens_quantidade _ _ _ (fun e he => (hprops e he).2.2.1) it h2

theorem deletar_pedido_invariante (db : DB) (pid : Nat)
    (h : invariante db) : invariante (deletar_pedido db pid).1 := by
  unfold deletar_pedido
  refine transacao_invariante _ _ h ?_
  intro db' hok
  simp only [deletar_pedido_corpo] at hok
  split at hok
  · exact absurd hok (by simp)
  · injection hok with hok
    subst hok
    have hrev : estoqueOk (reverterEstoque db
        ((db.itensDoPedido pid).map (fun it => (it.produto_id, it.quantidade)))) := by
      apply reverterEstoque_estoqueOk _ _ ?_ h.1
      intro x hx
      simp only [List.mem_map] at hx
      obtain ⟨it, hit, rfl⟩ := hx
      exact le_of_lt (h.2 it (List.mem_of_mem_filter hit))
    constructor
    · intro r hr
      exact hrev r hr
    · intro it hit
      have hit2 : it ∈ (reverterEstoque db
          ((db.itensDoPedido pid).map
            (fun x => (x.produto_id, x.quantidade)))).itens.filter
          (fun x => x.pedido_id ≠ pid) := hit
      rw [reverterEstoque_itens] at hit2
      exact h.2 it (List.mem_of_mem_filter hit2)

instance (db : DB) : Decidable (invariante db) := by
  unfold invariante
  infer_instance

/-- A tiny concrete catalog used to instantiate the universally quantified
claims. -/
def dbExemplo : DB :=
  { produtos := [{ id := 1, nome := "Caneta", descricao := none, preco := 2,
                   quantidade_estoque := 10 }],
    pedidos := [], itens := [],
    nextProdutoId := 2, nextPedidoId := 1, nextItemId := 1 }

/-- C1: for every product and every committed operation (product
create/update/delete, order create/update/delete), starting from a state
satisfying the system invariants, every stock quantity is still non-negative
afterwards — order lines are applied only after the sufficient-stock check
and product updates reject a negative stock value, so `estoqueOk` (together
with the positivity of item quantities) is preserved by all six operations. -/
theorem C1_estoque_nunca_negativo (db : DB) (h : invariante db) :
    (∀ produto, invariante (criar_produto db produto).1) ∧
    (∀ pid dados, invariante (atualizar_produto db pid dados).1) ∧
    (∀ pedido, invariante (criar_pedido db pedido).1) ∧
    (∀ pid dados, invariante (atualizar_pedido db pid dados).1) ∧
    (∀ pid, invariante (deletar_pedido db pid).1) ∧
    (∀ pid, invariante (deletar_produto db pid).1) :=
  ⟨fun produto => criar_produto_invariante db produto h,
   fun pid dados => atualizar_produto_invariante db pid dados h,
   fun pedido => criar_pedido_invariante db pedido h,
   fun pid dados => atualizar_pedido_invariante db pid dados h,
   fun pid => deletar_pedido_invariante db pid h,
   fun pid => deletar_produto_invariante db pid h⟩

/-- Witness for C1 at a concrete state and a concrete order creation. -/
theorem C1_estoque_nunca_negativo_witness :
    invariante dbExemplo ∧
    invariante (criar_pedido dbExemplo ⟨"Ana", [⟨1, 3⟩]⟩).1 :=
  ⟨by decide,
   (C1_estoque_nunca_negativo dbExemplo (by decide)).2.2.1 ⟨"Ana", [⟨1, 3⟩]⟩⟩

/-- C9: a product update never modifies any existing order item row: the
items table is untouched by `atualizar_produto` (in particular on every
successful update with new name, description, price and stock), so the
snapshot fields `nome_produto`, `preco_unitario`, `quantidade` and
`valor_total_item` of every item are the same afterwards, even when the
product is renamed or repriced. -/
theorem C9_atualizar_produto_preserva_itens (db : DB) (pid : Nat)
    (dados : ProdutoCreate) :
    (atualizar_produto db pid dados).1.itens = db.itens := by
  unfold atualizar_produto
  cases hc : atualizar_produto_corpo db pid dados with
  | error ed =>
    obtain ⟨e, d⟩ := ed
    simp [transacao]
  | ok db' =>
    simp only [transacao]
    obtain ⟨produto, hfind, hstock, rfl⟩ := atualizar_produto_corpo_ok hc
    rfl

/-- C3: all validation of a create-order request (non-empty list, no
duplicate product ids, positive quantities, product existence, sufficient
stock) happens before any mutation: whenever the body raises, the working
state it carries is exactly the input state — nothing was staged — and the
committed operation either succeeds or leaves the store unchanged. -/
theorem C3_criar_pedido_atomico (db : DB) (pedido : PedidoCreate) :
    (∀ e d, criar_pedido_corpo db pedido = .error (e, d) → d = db) ∧
    ((criar_pedido db pedido).2 = none ∨ (criar_pedido db pedido).1 = db) := by
  constructor
  · intro e d h
    simp only [criar_pedido_corpo] at h
    split at h
    · injection h with h2
      exact (congrArg Prod.snd h2).symm
    split at h
    · injection h with h2
      exact (congrArg Prod.snd h2).symm
    split at h
    · injection h with h2
      exact (congrArg Prod.snd h2).symm
    · exact absurd h (by simp)
  · unfold criar_pedido
    cases hc : criar_pedido_corpo db pedido with
    | ok db' =>
      left
      rfl
    | error ed =>
      right
      obtain ⟨e, d⟩ := ed
      rfl

/-- Witness for C3: a request repeating product 1 twice fails carrying an
untouched working state and commits nothing. -/
theorem C3_criar_pedido_atomico_witness :
    dbExemplo = dbExemplo ∧
    ((criar_pedido dbExemplo ⟨"Ana", [⟨1, 1⟩, ⟨1, 2⟩]⟩).2 = none ∨
      (criar_pedido dbExemplo ⟨"Ana", [⟨1, 1⟩, ⟨1, 2⟩]⟩).1 = dbExemplo) :=
  ⟨(C3_criar_pedido_atomico dbExemplo ⟨"Ana", [⟨1, 1⟩, ⟨1, 2⟩]⟩).1
      Err.produtosDuplicados dbExemplo (by rfl),
   (C3_criar_pedido_atomico dbExemplo ⟨"Ana", [⟨1, 1⟩, ⟨1, 2⟩]⟩).2⟩

/-- The single product of the concrete states used by the C8 witness. -/
def produtoCaneta : Produto :=
  { id := 1, nome := "Caneta", descricao := none, preco := 2,
    quantidade_estoque := 7 }

/-- A concrete state where product 1 is referenced by an order item. -/
def dbComItem : DB :=
  { produtos := [produtoCaneta],
    pedidos := [{ id := 1, cliente := "Ana", valor_total := 6 }],
    itens := [{ id := 1, pedido_id := 1, produto_id := 1, nome_produto := "Caneta",
                quantidade := 3, preco_unitario := 2, valor_total_item := 6 }],
    nextProdutoId := 2, nextPedidoId := 2, nextItemId := 2 }

/-- C8: deleting a product referenced by at least one existing order item
fails with the in-use error — classified Conflict by the taxonomy — and the
whole state, the product included, is unchanged; deleting a product
referenced by no item removes exactly that product from the catalog. -/
theorem C8_deletar_produto_conflito (db : DB) (pid : Nat) (p : Produto)
    (hfind : db.findProduto pid = some p) :
    ((∃ it ∈ db.itens, it.produto_id = pid) →
      deletar_produto db pid = (db, some .produtoEmPedidos) ∧
      Err.produtoEmPedidos.taxonomy = .conflict ∧ p ∈ db.produtos) ∧
    ((∀ it ∈ db.itens, it.produto_id ≠ pid) →
      deletar_produto db pid
        = ({ db with produtos := db.produtos.filter (fun q => q.id ≠ pid) }, none)) := by
  constructor
  · intro ⟨it, hit, hpid⟩
    have hfound : (db.itens.find? (fun x => x.produto_id == pid)).isSome := by
      rw [List.find?_isSome]
      exact ⟨it, hit, by simpa using hpid⟩
    obtain ⟨x, hx⟩ := Option.isSome_iff_exists.mp hfound
    unfold deletar_produto deletar_produto_corpo
    rw [hfind, hx]
    exact ⟨rfl, rfl, (findProduto_eq_some hfind).1⟩
  · intro hno
    have hnone : db.itens.find? (fun x => x.produto_id == pid) = none := by
      rw [List.find?_eq_none]
      intro x hx
      simpa using hno x hx
    unfold deletar_produto deletar_produto_corpo
    rw [hfind, hnone]
    rfl

/-- Witness for C8: product 1 of the concrete state is in an order, so its
deletion is refused and nothing changes. -/
theorem C8_deletar_produto_conflito_witness :
    deletar_produto dbComItem 1 = (dbComItem, some .produtoEmPedidos) ∧
    Err.produtoEmPedidos.taxonomy = .conflict ∧ produtoCaneta ∈ dbComItem.produtos :=
  (C8_deletar_produto_conflito dbComItem 1 produtoCaneta (by rfl)).1
    ⟨{ id := 1, pedido_id := 1, produto_id := 1, nome_produto := "Caneta",
       quantidade := 3, preco_unitario := 2, valor_total_item := 6 },
     by decide, rfl⟩

/-- A state holding one order with two items, the second referencing a
product (id 2) that is no longer in the catalog. -/
def dbPedidoOrfao (sa qa qb : Int) (preco : Rat) : DB :=
  { produtos := [{ id := 1, nome := "Caneta", descricao := none, preco := preco,
                   quantidade_estoque := sa }],
    pedidos := [{ id := 1, cliente := "Ana", valor_total := 0 }],
    itens := [{ id := 1, pedido_id := 1, produto_id := 1, nome_produto := "Caneta",
                quantidade := qa, preco_unitario := preco, valor_total_item := 0 },
              { id := 2, pedido_id := 1, produto_id := 2, nome_produto := "Borracha",
                quantidade := qb, preco_unitario := preco, valor_total_item := 0 }],
    nextProdutoId := 3, nextPedidoId := 2, nextItemId := 3 }

/-- C10: deleting an existing order always succeeds — the reversal loop
silently skips an item whose product no longer exists (no error and no stock
change for the missing product) while still replenishing every product that
exists — and the order with all its items is removed.  In the two-item
state, only the stock of the surviving product 1 grows, by exactly the
quantity of its item. -/
theorem C10_deletar_pedido_produto_ausente (sa qa qb : Int) (preco : Rat) :
    (∀ db pid, (db.findPedido pid).isSome → (deletar_pedido db pid).2 = none) ∧
    deletar_pedido (dbPedidoOrfao sa qa qb preco) 1
      = ({ produtos := [{ id := 1,
                          nome := "Caneta",
                          descricao := none,
                          preco := preco,
                          quantidade_estoque := sa + qa }],
           pedidos := [], itens := [],
           nextProdutoId := 3, nextPedidoId := 2, nextItemId := 3 }, none) := by
  constructor
  · intro db pid hs
    obtain ⟨pedido, hp⟩ := Option.isSome_iff_exists.mp hs
    unfold deletar_pedido deletar_pedido_corpo
    rw [hp]
    rfl
  · rfl

/-- Witness for C10 at concrete numbers. -/
theorem C10_deletar_pedido_produto_ausente_witness :
    ((dbPedidoOrfao 5 2 3 1).findPedido 1).isSome = true ∧
    (deletar_pedido (dbPedidoOrfao 5 2 3 1) 1).2 = none :=
  ⟨by decide,
   (C10_deletar_pedido_produto_ausente 5 2 3 1).1 (dbPedidoOrfao 5 2 3 1) 1
     (by decide)⟩

/-- A parametric one-product, one-order state: product 1 with stock `s`,
order 1 holding the single line (product 1, `q_old`). -/
def dbCenario (s q_old : Int) (preco : Rat) : DB :=
  { produtos := [{ id := 1, nome := "Caneta", descricao := none, preco := preco,
                   quantidade_estoque := s }],
    pedidos := [{ id := 1, cliente := "Ana", valor_total := q_old * preco }],
    itens := [{ id := 1, pedido_id := 1, produto_id := 1, nome_produto := "Caneta",
                quantidade := q_old, preco_unitario := preco,
                valor_total_item := q_old * preco }],
    nextProdutoId := 2, nextPedidoId := 2, nextItemId := 2 }

/-- C2: updating the order replenishes the stock of the product referenced by
the existing item before the new list is validated, so a new line
re-requesting the same product is checked against the replenished stock
`s + q_old` (not against `s`) and succeeds whenever `q_new ≤ s + q_old`,
leaving stock `s + q_old - q_new`. -/
theorem C2_atualizar_pedido_repoe_antes (s q_old q_new : Int) (preco : Rat)
    (h1 : 0 < q_new) (h2 : q_new ≤ s + q_old) :
    atualizar_pedido (dbCenario s q_old preco) 1 ⟨"Ana", [⟨1, q_new⟩]⟩
      = ({ produtos := [{ id := 1,
                          nome := "Caneta",
                          descricao := none,
                          preco := preco,
                          quantidade_estoque := s + q_old - q_new }],
           pedidos := [{ id := 1, cliente := "Ana", valor_total := q_new * preco }],
           itens := [{ id := 2,
                       pedido_id := 1,
                       produto_id := 1,
                       nome_produto := "Caneta",
                       quantidade := q_new,
                       preco_unitario := preco,
                       valor_total_item := q_new * preco }],
           nextProdutoId := 2, nextPedidoId := 2, nextItemId := 3 }, none) := by
  have hq1 : ¬ q_new ≤ 0 := h1.not_le
  have hq2 : ¬ s + q_old < q_new := not_lt.mpr h2
  have hnome : normalizeNome "Ana" = "Ana" := rfl
  unfold atualizar_pedido transacao atualizar_pedido_corpo estadoRevertido
  simp [dbCenario, DB.findPedido, DB.itensDoPedido, DB.findProduto, DB.setProduto,
    DB.setPedido, reverterEstoque, validarItens, aplicarItens, hnome, hq1, hq2]

/-- Witness for C2 with the numbers of the specification example: an order
holding (P,3) out of stock 7 updated to (P,5) succeeds and leaves stock 5. -/
theorem C2_atualizar_pedido_repoe_antes_witness :
    (0 : Int) < 5 ∧ (5 : Int) ≤ 7 + 3 ∧
    atualizar_pedido (dbCenario 7 3 2) 1 ⟨"Ana", [⟨1, 5⟩]⟩
      = ({ produtos := [{ id := 1, nome := "Caneta", descricao := none, preco := 2,
                          quantidade_estoque := 7 + 3 - 5 }],
           pedidos := [{ id := 1, cliente := "Ana",
                         valor_total := (5 : Int) * (2 : Rat) }],
           itens := [{ id := 2, pedido_id := 1, produto_id := 1,
                       nome_produto := "Caneta", quantidade := 5,
                       preco_unitario := 2,
                       valor_total_item := (5 : Int) * (2 : Rat) }],
           nextProdutoId := 2, nextPedidoId := 2, nextItemId := 3 }, none) :=
  ⟨by decide, by decide,
   C2_atualizar_pedido_repoe_antes 7 3 5 2 (by decide) (by decide)⟩

/-- C4: when validation of the new item list fails after the old item was
reversed and removed, the body raises carrying a working state in which the
stock is already replenished (`s + q_old`) and the items are gone — and the
committed operation rolls that back: the post-state is exactly the pre-update
state, with the original item, order fields and product stock intact.
Moreover for every order update whatsoever, the committed result either
succeeds or equals the pre-state. -/
theorem C4_atualizar_pedido_rollback (s q_old q_new : Int) (preco : Rat)
    (h1 : 0 < q_new) (h2 : s + q_old < q_new) :
    (∀ db pid dados,
      (atualizar_pedido db pid dados).2 = none ∨
        (atualizar_pedido db pid dados).1 = db) ∧
    atualizar_pedido_corpo (dbCenario s q_old preco) 1 ⟨"Ana", [⟨1, q_new⟩]⟩
      = .error (.estoqueInsuficiente "Caneta",
          { produtos := [{ id := 1,
                           nome := "Caneta",
                           descricao := none,
                           preco := preco,
                           quantidade_estoque := s + q_old }],
            pedidos := [{ id := 1, cliente := "Ana", valor_total := q_old * preco }],
            itens := [],
            nextProdutoId := 2, nextPedidoId := 2, nextItemId := 2 }) ∧
    atualizar_pedido (dbCenario s q_old preco) 1 ⟨"Ana", [⟨1, q_new⟩]⟩
      = (dbCenario s q_old preco, some (.estoqueInsuficiente "Caneta")) := by
  have hq1 : ¬ q_new ≤ 0 := h1.not_le
  refine ⟨?_, ?_, ?_⟩
  · intro db pid dados
    unfold atualizar_pedido
    cases hc : atualizar_pedido_corpo db pid dados with
    | ok db' =>
      left
      rfl
    | error ed =>
      right
      obtain ⟨e, d⟩ := ed
      rfl
  · unfold atualizar_pedido_corpo estadoRevertido
    simp [dbCenario, DB.findPedido, DB.itensDoPedido, DB.findProduto, DB.setProduto,
      DB.setPedido, reverterEstoque, validarItens, hq1, h2]
  · unfold atualizar_pedido transacao atualizar_pedido_corpo estadoRevertido
    simp [dbCenario, DB.findPedido, DB.itensDoPedido, DB.findProduto, DB.setProduto,
      DB.setPedido, reverterEstoque, validarItens, hq1, h2]

/-- Witness for C4: stock 4, old quantity 3, new quantity 9 > 4 + 3. -/
theorem C4_atualizar_pedido_rollback_witness :
    (0 : Int) < 9 ∧ (4 : Int) + 3 < 9 ∧
    atualizar_pedido (dbCenario 4 3 2) 1 ⟨"Ana", [⟨1, 9⟩]⟩
      = (dbCenario 4 3 2, some (.estoqueInsuficiente "Caneta")) :=
  ⟨by decide, by decide,
   (C4_atualizar_pedido_rollback 4 3 9 2 (by decide) (by decide)).2.2⟩

/-- A parametric one-product catalog with no orders. -/
def dbProduto (s : Int) (preco : Rat) : DB :=
  { produtos := [{ id := 1, nome := "Caneta", descricao := none, preco := preco,
                   quantidade_estoque := s }],
    pedidos := [], itens := [],
    nextProdutoId := 2, nextPedidoId := 1, nextItemId := 1 }

/-- C6: deleting an order exactly reverses its stock effect: creating an
order consuming `n` units of the product takes the stock from `s` to
`s - n`, and deleting that order (whatever order totals are stored) returns
the stock to `s` and removes the order together with all of its items. -/
theorem C6_deletar_pedido_reverte (s n : Int) (preco : Rat)
    (h1 : 0 < n) (h2 : n ≤ s) :
    criar_pedido (dbProduto s preco) ⟨"Ana", [⟨1, n⟩]⟩
      = ({ produtos := [{ id := 1,
                          nome := "Caneta",
                          descricao := none,
                          preco := preco,
                          quantidade_estoque := s - n }],
           pedidos := [{ id := 1, cliente := "Ana", valor_total := n * preco }],
           itens := [{ id := 1,
                       pedido_id := 1,
                       produto_id := 1,
                       nome_produto := "Caneta",
                       quantidade := n,
                       preco_unitario := preco,
                       valor_total_item := n * preco }],
           nextProdutoId := 2, nextPedidoId := 2, nextItemId := 2 }, none) ∧
    ∀ vt vti : Rat,
      deletar_pedido
        ({ produtos := [{ id := 1,
                          nome := "Caneta",
                          descricao := none,
                          preco := preco,
                          quantidade_estoque := s - n }],
           pedidos := [{ id := 1, cliente := "Ana", valor_total := vt }],
           itens := [{ id := 1,
                       pedido_id := 1,
                       produto_id := 1,
                       nome_produto := "Caneta",
                       quantidade := n,
                       preco_unitario := preco,
                       valor_total_item := vti }],
           nextProdutoId := 2, nextPedidoId := 2, nextItemId := 2 }) 1
        = ({ produtos := [{ id := 1,
                            nome := "Caneta",
                            descricao := none,
                            preco := preco,
                            quantidade_estoque := s }],
             pedidos := [], itens := [],
             nextProdutoId := 2, nextPedidoId := 2, nextItemId := 2 }, none) := by
  have hq1 : ¬ n ≤ 0 := h1.not_le
  have hq2 : ¬ s < n := not_lt.mpr h2
  constructor
  · unfold criar_pedido transacao criar_pedido_corpo
    simp [dbProduto, DB.findProduto, DB.setProduto, validarItens, aplicarItens,
      hq1, hq2, show normalizeNome "Ana" = "Ana" from rfl]
  · intro vt vti
    unfold deletar_pedido transacao deletar_pedido_corpo
    simp [DB.findPedido, DB.itensDoPedido, DB.findProduto, DB.setProduto,
      reverterEstoque, sub_add_cancel]

/-- Witness for C6: stock 10, quantity 3; deletion returns the stock to 10. -/
theorem C6_deletar_pedido_reverte_witness :
    (0 : Int) < 3 ∧ (3 : Int) ≤ 10 ∧
    deletar_pedido
      ({ produtos := [{ id := 1, nome := "Caneta", descricao := none, preco := 2,
                        quantidade_estoque := 10 - 3 }],
         pedidos := [{ id := 1, cliente := "Ana", valor_total := 6 }],
         itens := [{ id := 1, pedido_id := 1, produto_id := 1, nome_produto := "Caneta",
                     quantidade := 3, preco_unitario := 2, valor_total_item := 6 }],
         nextProdutoId := 2, nextPedidoId := 2, nextItemId := 2 }) 1
      = ({ produtos := [{ id := 1, nome := "Caneta", descricao := none, preco := 2,
                          quantidade_estoque := 10 }],
           pedidos := [], itens := [],
           nextProdutoId := 2, nextPedidoId := 2, nextItemId := 2 }, none) :=
  ⟨by decide, by decide,
   (C6_deletar_pedido_reverte 10 3 2 (by decide) (by decide)).2 6 6⟩

/-- C7: an order line requesting more than the current stock makes the
operation fail with the insufficient-stock error — status 400, classified
Conflict by the taxonomy — and the committed state (products and orders) is
exactly the pre-operation state, both on order creation and on order
update. -/
theorem C7_estoque_insuficiente_rejeita (s q s2 q_old q_new : Int)
    (preco preco2 : Rat) (hc1 : 0 < q) (hc2 : s < q)
    (hu1 : 0 < q_new) (hu2 : s2 + q_old < q_new) :
    criar_pedido (dbProduto s preco) ⟨"Ana", [⟨1, q⟩]⟩
      = (dbProduto s preco, some (.estoqueInsuficiente "Caneta")) ∧
    atualizar_pedido (dbCenario s2 q_old preco2) 1 ⟨"Ana", [⟨1, q_new⟩]⟩
      = (dbCenario s2 q_old preco2, some (.estoqueInsuficiente "Caneta")) ∧
    (Err.estoqueInsuficiente "Caneta").taxonomy = .conflict ∧
    (Err.estoqueInsuficiente "Caneta").statusCode = 400 := by
  refine ⟨?_, ?_, rfl, rfl⟩
  · have hq1 : ¬ q ≤ 0 := hc1.not_le
    unfold criar_pedido transacao criar_pedido_corpo
    simp [dbProduto, DB.findProduto, validarItens, hq1, hc2]
  · have hq1 : ¬ q_new ≤ 0 := hu1.not_le
    unfold atualizar_pedido transacao atualizar_pedido_corpo estadoRevertido
    simp [dbCenario, DB.findPedido, DB.itensDoPedido, DB.findProduto, DB.setProduto,
      DB.setPedido, reverterEstoque, validarItens, hq1, hu2]

/-- Witness for C7: stock 2 cannot satisfy quantity 5 on creation, and
stock 4 + 3 cannot satisfy quantity 9 on update. -/
theorem C7_estoque_insuficiente_rejeita_witness :
    (0 : Int) < 5 ∧ (2 : Int) < 5 ∧ (0 : Int) < 9 ∧ (4 : Int) + 3 < 9 ∧
    criar_pedido (dbProduto 2 1) ⟨"Ana", [⟨1, 5⟩]⟩
      = (dbProduto 2 1, some (.estoqueInsuficiente "Caneta")) :=
  ⟨by decide, by decide, by decide, by decide,
   (C7_estoque_insuficiente_rejeita 2 5 4 3 9 1 1 (by decide) (by decide)
     (by decide) (by decide)).1⟩

/-- A committed run that reports no error came from a successful body. -/
theorem transacao_sucesso {db : DB} {r : Except (Err × DB) DB} {db' : DB}
    (h : transacao db r = (db', none)) : r = .ok db' := by
  cases r with
  | ok d =>
    simp only [transacao] at h
    injection h with h1 h2
    rw [h1]
  | error ed =>
    obtain ⟨e, dd⟩ := ed
    simp [transacao] at h

/-- Auxiliary list fact for orders: replacing, by primary key, one row in a
list commutes with lookup by any primary key. -/
theorem find_id_map_substituir_pedido (l : List Pedido) (p : Pedido) (pid : Nat) :
    (l.map (fun q => if q.id = p.id then p else q)).find? (fun q => q.id == pid)
      = (l.find? (fun q => q.id == pid)).map (fun q => if q.id = p.id then p else q) := by
  induction l with
  | nil => rfl
  | cons q l ih =>
    have hid : ((if q.id = p.id then p else q) : Pedido).id = q.id := by
      by_cases h1 : q.id = p.id
      · rw [if_pos h1, ← h1]
      · rw [if_neg h1]
    simp only [List.map_cons]
    by_cases h2 : q.id = pid
    · rw [List.find?_cons_of_pos (p := fun r : Pedido => r.id == pid) _
          (by simp only [hid]; simp [h2]),
        List.find?_cons_of_pos (p := fun r : Pedido => r.id == pid) _ (by simp [h2])]
      rfl
    · rw [List.find?_cons_of_neg (p := fun r : Pedido => r.id == pid) _
          (by simp only [hid]; simp [h2]),
        List.find?_cons_of_neg (p := fun r : Pedido => r.id == pid) _ (by simp [h2]), ih]

/-- Order lookup after an in-place order update. -/
theorem findPedido_setPedido (db : DB) (p : Pedido) (pid : Nat) :
    (db.setPedido p).findPedido pid
      = (db.findPedido pid).map (fun q => if q.id = p.id then p else q) := by
  simp only [DB.setPedido, DB.findPedido]
  exact find_id_map_substituir_pedido db.pedidos p pid

/-- The replenish-and-delete preparation touches no product field other than
the stock. -/
theorem estadoRevertido_chave (db : DB) (pid x : Nat) :
    ((estadoRevertido db pid).findProduto x).map chaveProduto
      = (db.findProduto x).map chaveProduto :=
  reverterEstoque_chave _ db x

/-- The replenish-and-delete preparation does not touch the order table. -/
theorem estadoRevertido_pedidos (db : DB) (pid : Nat) :
    (estadoRevertido db pid).pedidos = db.pedidos :=
  reverterEstoque_pedidos _ db

/-- The items of the replenish-and-delete preparation state are the original
items minus those of the updated order. -/
theorem estadoRevertido_itens (db : DB) (pid : Nat) :
    (estadoRevertido db pid).itens
      = db.itens.filter (fun it => it.pedido_id ≠ pid) := by
  show (reverterEstoque db _).itens.filter _ = _
  rw [reverterEstoque_itens]

/-- On a successful order creation the created order row has `valor_total`
equal to the sum of quantity times snapshot unit price over its items, and
every snapshot copies name and price of the product row looked up in the
pre-operation state. -/
theorem criar_pedido_total_ok {db : DB} {pedido : PedidoCreate} {db' : DB}
    (hfi : ∀ it ∈ db.itens, it.pedido_id ≠ db.nextPedidoId)
    (hfp : ∀ ped ∈ db.pedidos, ped.id ≠ db.nextPedidoId)
    (hrun : criar_pedido db pedido = (db', none)) :
    ∃ ped, db'.findPedido db.nextPedidoId = some ped ∧
      ped.valor_total
        = ((db'.itensDoPedido db.nextPedidoId).map
            (fun it => (it.quantidade : Rat) * it.preco_unitario)).sum ∧
      ∀ it ∈ db'.itensDoPedido db.nextPedidoId, ∃ p,
        db.findProduto it.produto_id = some p ∧
        it.nome_produto = p.nome ∧ it.preco_unitario = p.preco := by
  have hok : criar_pedido_corpo db pedido = .ok db' := transacao_sucesso hrun
  obtain ⟨vt, entradas, hval, hnd, rfl⟩ := criar_pedido_corpo_ok hok
  obtain ⟨novas, hes, hvt, hmap, hprops⟩ := validarItens_ok _ _ _ _ _ _ hval
  have hent : entradas = novas := by simpa using hes
  subst hent
  have hitens : DB.itensDoPedido
      (aplicarItens { db with
        pedidos := db.pedidos ++
          [{ id := db.nextPedidoId,
             cliente := normalizeNome pedido.cliente,
             valor_total := vt }],
        nextPedidoId := db.nextPedidoId + 1 } db.nextPedidoId entradas) db.nextPedidoId
      = novosItens db.nextItemId db.nextPedidoId entradas := by
    unfold DB.itensDoPedido
    have h2 : (aplicarItens { db with
        pedidos := db.pedidos ++
          [{ id := db.nextPedidoId,
             cliente := normalizeNome pedido.cliente,
             valor_total := vt }],
        nextPedidoId := db.nextPedidoId + 1 } db.nextPedidoId entradas).itens
        = db.itens ++ novosItens db.nextItemId db.nextPedidoId entradas :=
      (aplicarItens_itens _ _ _).trans rfl
    rw [h2, List.filter_append,
      List.filter_eq_nil_iff.mpr (fun it hit => by simpa using hfi it hit),
      List.filter_eq_self.mpr
        (fun it hit => by simpa using novosItens_pedido_id _ _ _ it hit)]
    simp
  refine ⟨⟨db.nextPedidoId, normalizeNome pedido.cliente, vt⟩, ?_, ?_, ?_⟩
  · have h1 : (aplicarItens { db with
        pedidos := db.pedidos ++
          [{ id := db.nextPedidoId,
             cliente := normalizeNome pedido.cliente,
             valor_total := vt }],
        nextPedidoId := db.nextPedidoId + 1 } db.nextPedidoId entradas).pedidos
        = db.pedidos ++
          [{ id := db.nextPedidoId,
             cliente := normalizeNome pedido.cliente,
             valor_total := vt }] :=
      (aplicarItens_pedidos _ _ _).trans rfl
    unfold DB.findPedido
    rw [h1, List.find?_append,
      List.find?_eq_none.mpr (fun x hx => by simpa using hfp x hx)]
    simp
  · rw [hitens, novosItens_soma _ _ _ (fun e he => (hprops e he).2.2.2.2), hvt]
    simp [somaTotais]
  · intro it hit
    rw [hitens] at hit
    obtain ⟨e, he, hid, hnome, hpreco, hq⟩ := novosItens_snapshot _ _ _ it hit
    refine ⟨e.produto, ?_, hnome, hpreco⟩
    rw [hid, (hprops e he).2.1]
    exact (hprops e he).1

/-- On a successful order update the updated order row has `valor_total`
equal to the sum of quantity times snapshot unit price over its new items,
and every snapshot copies name and price of the product row as it stood in
the pre-operation state. -/
theorem atualizar_pedido_total_ok {db : DB} {pid : Nat} {dados : PedidoCreate}
    {db' : DB} (hrun : atualizar_pedido db pid dados = (db', none)) :
    ∃ ped, db'.findPedido pid = some ped ∧
      ped.valor_total
        = ((db'.itensDoPedido pid).map
            (fun it => (it.quantidade : Rat) * it.preco_unitario)).sum ∧
      ∀ it ∈ db'.itensDoPedido pid, ∃ p,
        db.findProduto it.produto_id = some p ∧
        it.nome_produto = p.nome ∧ it.preco_unitario = p.preco := by
  have hok : atualizar_pedido_corpo db pid dados = .ok db' := transacao_sucesso hrun
  obtain ⟨pedido, vt, entradas, hfind, hnd, hval, rfl⟩ := atualizar_pedido_corpo_ok hok
  obtain ⟨novas, hes, hvt, hmap, hprops⟩ := validarItens_ok _ _ _ _ _ _ hval
  have hent : entradas = novas := by simpa using hes
  subst hent
  have hXitens : ((estadoRevertido db pid).setPedido { pedido with
      cliente := normalizeNome dados.cliente, valor_total := vt }).itens
      = db.itens.filter (fun it => it.pedido_id ≠ pid) := estadoRevertido_itens db pid
  have hitens : DB.itensDoPedido
      (aplicarItens ((estadoRevertido db pid).setPedido { pedido with
        cliente := normalizeNome dados.cliente, valor_total := vt }) pid entradas) pid
      = novosItens ((estadoRevertido db pid).setPedido { pedido with
          cliente := normalizeNome dados.cliente, valor_total := vt }).nextItemId
        pid entradas := by
    unfold DB.itensDoPedido
    rw [aplicarItens_itens, hXitens, List.filter_append]
    rw [List.filter_eq_nil_iff.mpr
        (fun it hit => by simpa using List.of_mem_filter hit),
      List.filter_eq_self.mpr
        (fun it hit => by simpa using novosItens_pedido_id _ _ _ it hit)]
    simp
  refine ⟨{ pedido with cliente := normalizeNome dados.cliente, valor_total := vt },
    ?_, ?_, ?_⟩
  · have h1 : (aplicarItens ((estadoRevertido db pid).setPedido { pedido with
        cliente := normalizeNome dados.cliente, valor_total := vt }) pid entradas).findPedido pid
        = ((estadoRevertido db pid).setPedido { pedido with
        cliente := normalizeNome dados.cliente, valor_total := vt }).findPedido pid := by
      unfold DB.findPedido
      rw [aplicarItens_pedidos]
    have h2 : (estadoRevertido db pid).findPedido pid = db.findPedido pid := by
      unfold DB.findPedido
      rw [estadoRevertido_pedidos]
    rw [h1, findPedido_setPedido, h2, hfind]
    simp
  · have hvt2 : ({ pedido with
        cliente := normalizeNome dados.cliente,
        valor_total := vt } : Pedido).valor_total = vt := rfl
    rw [hvt2, hitens, novosItens_soma _ _ _ (fun e he => (hprops e he).2.2.2.2), hvt]
    simp [somaTotais]
  · intro it hit
    rw [hitens] at hit
    obtain ⟨e, he, hid, hnome, hpreco, hq⟩ := novosItens_snapshot _ _ _ it hit
    have hchave := estadoRevertido_chave db pid e.item.produto_id
    rw [(hprops e he).1] at hchave
    obtain ⟨p, hp, hpc⟩ := Option.map_eq_some'.mp hchave.symm
    have hpc2 : p.id = e.produto.id ∧ p.nome = e.produto.nome
        ∧ p.descricao = e.produto.descricao ∧ p.preco = e.produto.preco := by
      simpa [chaveProduto, Prod.ext_iff] using hpc
    refine ⟨p, ?_, ?_, ?_⟩
    · rw [hid, (hprops e he).2.1]
      exact hp
    · rw [hnome, hpc2.2.1]
    · rw [hpreco, hpc2.2.2.2]

/-- C5: for every successfully created or updated order, the stored
`valor_total` equals the sum over its items of `quantidade × preco_unitario`,
and each item snapshots (`nome_produto`, `preco_unitario`) of the referenced
product as it stood at the time of the operation.  (For creation the
hypotheses say the autoincrement id is fresh, which the store guarantees.) -/
theorem C5_valor_total_consistente :
    (∀ (db : DB) (pedido : PedidoCreate) (db' : DB),
      (∀ it ∈ db.itens, it.pedido_id ≠ db.nextPedidoId) →
      (∀ ped ∈ db.pedidos, ped.id ≠ db.nextPedidoId) →
      criar_pedido db pedido = (db', none) →
      ∃ ped, db'.findPedido db.nextPedidoId = some ped ∧
        ped.valor_total
          = ((db'.itensDoPedido db.nextPedidoId).map
              (fun it => (it.quantidade : Rat) * it.preco_unitario)).sum ∧
        ∀ it ∈ db'.itensDoPedido db.nextPedidoId, ∃ p,
          db.findProduto it.produto_id = some p ∧
          it.nome_produto = p.nome ∧ it.preco_unitario = p.preco) ∧
    (∀ (db : DB) (pid : Nat) (dados : PedidoCreate) (db' : DB),
      atualizar_pedido db pid dados = (db', none) →
      ∃ ped, db'.findPedido pid = some ped ∧
        ped.valor_total
          = ((db'.itensDoPedido pid).map
              (fun it => (it.quantidade : Rat) * it.preco_unitario)).sum ∧
        ∀ it ∈ db'.itensDoPedido pid, ∃ p,
          db.findProduto it.produto_id = some p ∧
          it.nome_produto = p.nome ∧ it.preco_unitario = p.preco) :=
  ⟨fun _ _ _ hfi hfp hrun => criar_pedido_total_ok hfi hfp hrun,
   fun _ _ _ _ hrun => atualizar_pedido_total_ok hrun⟩

/-- The state produced by the concrete order update of the C5 witness,
spelled in the arithmetic form the operation computes. -/
def dbC5 : DB :=
  { produtos := [{ id := 1, nome := "Caneta", descricao := none, preco := 2,
                   quantidade_estoque := 7 + 3 - 5 }],
    pedidos := [{ id := 1, cliente := "Ana",
                  valor_total := 0 + (5 : Int) * (2 : Rat) }],
    itens := [{ id := 2, pedido_id := 1, produto_id := 1, nome_produto := "Caneta",
                quantidade := 5, preco_unitario := 2,
                valor_total_item := (5 : Int) * (2 : Rat) }],
    nextProdutoId := 2, nextPedidoId := 2, nextItemId := 3 }

/-- Witness for C5 on a concrete successful order update. -/
theorem C5_valor_total_consistente_witness :
    atualizar_pedido (dbCenario 7 3 2) 1 ⟨"Ana", [⟨1, 5⟩]⟩ = (dbC5, none) ∧
    ∃ ped, dbC5.findPedido 1 = some ped ∧
      ped.valor_total
        = ((dbC5.itensDoPedido 1).map
            (fun it => (it.quantidade : Rat) * it.preco_unitario)).sum ∧
      ∀ it ∈ dbC5.itensDoPedido 1, ∃ p,
        (dbCenario 7 3 2).findProduto it.produto_id = some p ∧
        it.nome_produto = p.nome ∧ it.preco_unitario = p.preco :=
  ⟨rfl,
   C5_valor_total_consistente.2 (dbCenario 7 3 2) 1 ⟨"Ana", [⟨1, 5⟩]⟩ dbC5 rfl⟩
